import Mathlib

/-!
# Verification of the manifest model and file-list resolution engine

A shallow embedding of `src/manifest_reader.py`: the `Manifest`, `FileList`
and `FolderStructure` classes and their resolution logic, together with
theorems settling the specification's claims about them.

Conventions of the embedding:
- Python exceptions (`KeyError`, `TypeError`) become an explicit error type
  `PyError`; fallible operations return `Except PyError _`.
- `pathlib` paths become `PyPath`: an absoluteness flag plus a list of path
  components.  Joining with `/` parses the right operand into components,
  dropping empty and `"."` components and restarting at root when the operand
  begins with a slash, mirroring `PurePosixPath` joining.
- The parsed YAML manifest document becomes the typed record `ManifestDict`:
  each key the code reads is a field, `Option.none` meaning the key is absent.
  Optional scalar keys carry their documented type; the values under `files`
  are `Option (List String)` because a YAML null there (an empty `kind:` line)
  reaches the code as Python `None`.
-/

namespace ManifestReader

/-- Decidable equality for `Except`, so concrete runs of the modelled code can
be checked by `decide`. -/
instance {ε α : Type} [DecidableEq ε] [DecidableEq α] : DecidableEq (Except ε α) := fun x y =>
  match x, y with
  | .ok a, .ok b =>
      if h : a = b then .isTrue (by rw [h]) else .isFalse (by intro he; cases he; exact h rfl)
  | .error a, .error b =>
      if h : a = b then .isTrue (by rw [h]) else .isFalse (by intro he; cases he; exact h rfl)
  | .ok _, .error _ => .isFalse (by intro he; cases he)
  | .error _, .ok _ => .isFalse (by intro he; cases he)

/-- Python exceptions raised by the modelled code: `KeyError(key)` from a
failed dictionary lookup, `TypeError` from iterating a non-iterable. -/
inductive PyError where
  | keyError (key : String)
  | typeError
  deriving DecidableEq, Repr

/-- A `pathlib` pure path: whether it is anchored at the filesystem root, and
its list of components. -/
structure PyPath where
  absolute : Bool
  segs : List String
  deriving DecidableEq, Repr

/-- Split a character list at every `'/'`, keeping empty pieces (the same
cut points `str.split("/")` would produce). -/
def splitSlashAux : List Char → List Char → List String
  | [], acc => [String.mk acc.reverse]
  | c :: rest, acc =>
      if c = '/' then String.mk acc.reverse :: splitSlashAux rest []
      else splitSlashAux rest (c :: acc)

/-- Split a string at every slash. -/
def splitSlash (s : String) : List String :=
  splitSlashAux s.data []

/-- The path components `pathlib` keeps from one string argument: the pieces
between slashes, with empty pieces and `"."` dropped. -/
def pathSegs (s : String) : List String :=
  (splitSlash s).filter (fun c => !(c == "" || c == "."))

/-- Whether a string names an absolute path (starts with a slash). -/
def isAbsolutePath (s : String) : Bool :=
  match s.data with
  | c :: _ => c = '/'
  | [] => false

/-- `p / s` for paths: an absolute right operand replaces the whole path,
otherwise its components are appended to `p`'s. -/
def PyPath.div (p : PyPath) (s : String) : PyPath :=
  if isAbsolutePath s then ⟨true, pathSegs s⟩
  else ⟨p.absolute, p.segs ++ pathSegs s⟩

/-- `SIMULATORS` from `manifest_reader.py`. -/
def SIMULATORS : List String := ["msim", "msim_free", "ghdl", "qsim", "xsim"]

/-- `DEFAULT_SIMULATORS` from `manifest_reader.py`. -/
def DEFAULT_SIMULATORS : List String := ["msim", "msim_free"]

/-- `DEFAULT_MAX_THREADS` from `manifest_reader.py`. -/
def DEFAULT_MAX_THREADS : Int := 5

/-- `FolderStructure`: the `name` attribute (None when the supplied
convention name is unknown) and the `structure` kind-to-subdirectory mapping
(field `struct`; `structure` is a Lean keyword). -/
structure FolderStructure where
  name : Option String
  struct : List (String × String)
  deriving DecidableEq, Repr

/-- `FolderStructure.folder_structures`: the class-level table of layout
conventions, as an association list. -/
def folder_structures : List (String × List (String × String)) :=
  [("src_dsn", [("dsn", "src/dsn"), ("tb", "src/tb"), ("self", "")]),
   ("hdl_sim", [("dsn", ".."), ("tb", "."), ("self", "")])]

/-- `FolderStructure.__init__`: record the name when it is a known convention
(else `None`), then look the structure up in the table — an unknown name makes
this second step raise `KeyError` during construction. -/
def FolderStructure.init (folder_structure : String) : Except PyError FolderStructure :=
  let name := if (List.lookup folder_structure folder_structures).isSome
    then some folder_structure else none
  match List.lookup folder_structure folder_structures with
  | none => .error (.keyError folder_structure)
  | some st => .ok ⟨name, st⟩

/-- `FileList`: a kind tag, the (possibly `None`) list of filenames, and the
pre-resolved standard. -/
structure FileList where
  kind : String
  files : Option (List String)
  standard : String
  deriving DecidableEq, Repr

/-- `FileList.kinds`: the class-level kind-to-library-suffix table. -/
def FileList.kinds : List (String × String) :=
  [("dsn", "_dsn"), ("tb", "_tb"), ("self", "_lib"), ("none", "")]

/-- `FileList.get_lib_name`: the block name concatenated with the suffix for
this list's kind; a kind outside the table raises `KeyError`. -/
def FileList.get_lib_name (fl : FileList) (blk_name : String) : Except PyError String :=
  match List.lookup fl.kind FileList.kinds with
  | none => .error (.keyError fl.kind)
  | some suffix => .ok (blk_name ++ suffix)

/-- The parsed manifest document, typed by the shapes the code reads;
`none` means the key is absent. -/
structure ManifestDict where
  name : Option String
  folder_structure : Option String
  standard : Option String
  standards : Option (List (String × String))
  files : Option (List (String × Option (List String)))
  blocks : Option (List String)
  constraints : Option (List String)
  ips : Option (List String)
  supported_simulators : Option (List String)
  max_threads : Option Int
  deriving DecidableEq, Repr

/-- The constructed `Manifest` object's fields. -/
structure Manifest where
  root_dir : PyPath
  name : String
  folder_structure : Option FolderStructure
  file_lists : List FileList
  blocks : Option (List String)
  constraints : Option (List String)
  ips : Option (List String)
  supported_simulators : List String
  max_threads : Int
  deriving DecidableEq, Repr

/-- The body of the `for kind in manifest_dict["files"].keys()` loop of
`Manifest.__init__` (lines 100–106): the standard for one kind under the
default standard and the optional `standards` override map. -/
def resolveStandard (default_standard : String)
    (standards : Option (List (String × String))) (kind : String) : String :=
  if kind == "tb" then "VHDL 2008"
  else
    match standards with
    | some stds =>
        match List.lookup kind stds with
        | some s => s
        | none => default_standard
    | none => default_standard

/-- The `FileList`s built by `Manifest.__init__`'s loop, one per entry of the
`files` mapping, in declaration order. -/
def mkFileLists (default_standard : String)
    (standards : Option (List (String × String)))
    (filesMap : List (String × Option (List String))) : List FileList :=
  filesMap.map (fun kv => ⟨kv.1, kv.2, resolveStandard default_standard standards kv.1⟩)

/-- Lines 84–87 of `Manifest.__init__`: build the optional `FolderStructure`
when the `folder_structure` key is present. -/
def initFolderStructure : Option String → Except PyError (Option FolderStructure)
  | some fsname => (FolderStructure.init fsname).map some
  | none => .ok none

/-- `Manifest.__init__`: read `name` (KeyError when absent), build the
optional `FolderStructure`, compute the default standard and per-kind
overrides, build one `FileList` per kind under `files` (KeyError when the
`files` key is absent), and default the remaining optional fields. -/
def Manifest.init (manifest_dict : ManifestDict) (root_dir : PyPath) :
    Except PyError Manifest :=
  match manifest_dict.name with
  | none => .error (.keyError "name")
  | some name =>
    match initFolderStructure manifest_dict.folder_structure with
    | .error e => .error e
    | .ok folder_structure =>
      match manifest_dict.files with
      | none => .error (.keyError "files")
      | some filesMap =>
        .ok { root_dir := root_dir
              name := name
              folder_structure := folder_structure
              file_lists := mkFileLists (manifest_dict.standard.getD "VHDL")
                manifest_dict.standards filesMap
              blocks := manifest_dict.blocks
              constraints := manifest_dict.constraints
              ips := manifest_dict.ips
              supported_simulators :=
                manifest_dict.supported_simulators.getD DEFAULT_SIMULATORS
              max_threads := manifest_dict.max_threads.getD DEFAULT_MAX_THREADS }

/-- `Manifest.get_source_dir`: `root_dir` when there is no folder structure,
else `root_dir / structure[kind]` (KeyError when the structure has no entry
for the kind). -/
def Manifest.get_source_dir (m : Manifest) (kind : String) : Except PyError PyPath :=
  match m.folder_structure with
  | none => .ok m.root_dir
  | some fs =>
      match List.lookup kind fs.struct with
      | none => .error (.keyError kind)
      | some sub => .ok (m.root_dir.div sub)

/-- The local `preference_order` of `Manifest.get_preferred_simulator`. -/
def preference_order : List String := ["ghdl", "qsim", "msim", "msim_free", "xsim"]

/-- `Manifest.get_preferred_simulator`: the first entry of the preference
order that is in `supported_simulators`, else Python's implicit `None`. -/
def Manifest.get_preferred_simulator (m : Manifest) : Option String :=
  preference_order.find? (fun simulator => m.supported_simulators.contains simulator)

/-- `Manifest.get_max_threads`. -/
def Manifest.get_max_threads (m : Manifest) : Int :=
  m.max_threads

/-- The loop of `Manifest.get_all_files` over a list of file lists: resolve
the directory for each list's kind, then join it with every filename.
Iterating a `None` `files` attribute raises `TypeError`. -/
def getAllFilesAux (m : Manifest) : List FileList → Except PyError (List PyPath)
  | [] => .ok []
  | fl :: rest =>
      match m.get_source_dir fl.kind with
      | .error e => .error e
      | .ok dir =>
          match fl.files with
          | none => .error .typeError
          | some files =>
              match getAllFilesAux m rest with
              | .error e => .error e
              | .ok restPaths => .ok (files.map (fun file => dir.div file) ++ restPaths)

/-- `Manifest.get_all_files`. -/
def Manifest.get_all_files (m : Manifest) : Except PyError (List PyPath) :=
  getAllFilesAux m m.file_lists

/-! ## Spec-side projections and the concrete documents, paths and manifests
used by the witness theorems -/

def dC1 : ManifestDict :=
  ⟨some "blk", none, some "VHDL", some [("tb", "VHDL 1993")],
   some [("tb", some ["t.vhd"])], none, none, none, none, none⟩

def rC1 : PyPath := ⟨true, ["root"]⟩

def mC1 : Manifest :=
  ⟨rC1, "blk", none, [⟨"tb", some ["t.vhd"], "VHDL 2008"⟩],
   none, none, none, DEFAULT_SIMULATORS, DEFAULT_MAX_THREADS⟩

def dC2 : ManifestDict :=
  ⟨some "blk", none, some "VHDL", some [("dsn", "VHDL 2008")],
   some [("dsn", some ["a.vhd"]), ("tb", some ["t.vhd"])], none, none, none, none, none⟩

def rC2 : PyPath := ⟨true, ["root"]⟩

def mC2 : Manifest :=
  ⟨rC2, "blk", none,
   [⟨"dsn", some ["a.vhd"], "VHDL 2008"⟩, ⟨"tb", some ["t.vhd"], "VHDL 2008"⟩],
   none, none, none, DEFAULT_SIMULATORS, DEFAULT_MAX_THREADS⟩

def mC5a : Manifest :=
  ⟨⟨true, ["root"]⟩, "blk", none, [⟨"dsn", some ["a.vhd"], "VHDL"⟩],
   none, none, none, DEFAULT_SIMULATORS, DEFAULT_MAX_THREADS⟩

def mC5b : Manifest :=
  ⟨⟨true, ["root"]⟩, "blk",
   some ⟨some "src_dsn", [("dsn", "src/dsn"), ("tb", "src/tb"), ("self", "")]⟩,
   [⟨"dsn", some ["a.vhd"], "VHDL"⟩],
   none, none, none, DEFAULT_SIMULATORS, DEFAULT_MAX_THREADS⟩

def mC6a : Manifest :=
  ⟨⟨true, ["root"]⟩, "blk", none, [], none, none, none, ["xsim", "msim"],
   DEFAULT_MAX_THREADS⟩

def mC6b : Manifest :=
  ⟨⟨true, ["root"]⟩, "blk", none, [], none, none, none, [], DEFAULT_MAX_THREADS⟩

/-- The document's `folder_structure` key, when present, names a known
convention — the side condition under which construction can get past the
folder-structure step. -/
def folderOk (d : ManifestDict) : Prop :=
  ∀ s, d.folder_structure = some s → (List.lookup s folder_structures).isSome = true

def dC8a : ManifestDict :=
  ⟨none, none, none, none, some [("dsn", some ["a.vhd"])], none, none, none, none, none⟩

def dC8b : ManifestDict :=
  ⟨some "blk", none, none, none, none, none, none, none, none, none⟩

def dC8c : ManifestDict :=
  ⟨some "blk", none, none, none, some [("dsn", some ["a.vhd"])], none, none, none, none, none⟩

def rC8 : PyPath := ⟨true, ["root"]⟩

def dC10 : ManifestDict :=
  ⟨some "blk", none, none, none, some [("weird", some ["w.vhd"])],
   none, none, none, none, none⟩

def rC10 : PyPath := ⟨true, ["root"]⟩

def mC10 : Manifest :=
  ⟨rC10, "blk", none, [⟨"weird", some ["w.vhd"], "VHDL"⟩],
   none, none, none, DEFAULT_SIMULATORS, DEFAULT_MAX_THREADS⟩

/-- The resolved source directory of a kind, with `root_dir` as a dummy value
in the error case (the theorems below only use it where resolution
succeeds). -/
def resolvedDir (m : Manifest) (kind : String) : PyPath :=
  match m.get_source_dir kind with
  | .ok d => d
  | .error _ => m.root_dir

/-- The projection `get_all_files` is specified to compute: for every
FileList in declaration order, every filename joined with that FileList's
resolved source directory. -/
def expectedAllFiles (m : Manifest) : List PyPath :=
  (m.file_lists.map (fun fl =>
    (fl.files.getD []).map (fun file => (resolvedDir m fl.kind).div file))).flatten

def mC4 : Manifest :=
  ⟨⟨true, ["root"]⟩, "blk",
   some ⟨some "src_dsn", [("dsn", "src/dsn"), ("tb", "src/tb"), ("self", "")]⟩,
   [⟨"dsn", some ["a.vhd", "b.vhd"], "VHDL"⟩, ⟨"tb", some ["t.vhd"], "VHDL 2008"⟩],
   none, none, none, DEFAULT_SIMULATORS, DEFAULT_MAX_THREADS⟩

def dC9 : ManifestDict :=
  ⟨some "blk", none, none, none, some [("dsn", some ["a.vhd"]), ("tb", none)],
   none, none, none, none, none⟩

def rC9 : PyPath := ⟨true, ["root"]⟩

/-! ## Helper lemmas about `Manifest.init` -/

/-- Successful construction, fully characterized by the fields it copies. -/
theorem init_ok (d : ManifestDict) (r : PyPath) {name : String}
    {fso : Option FolderStructure} {fm : List (String × Option (List String))}
    (hn : d.name = some name)
    (hfs : initFolderStructure d.folder_structure = .ok fso)
    (hf : d.files = some fm) :
    Manifest.init d r = .ok
      { root_dir := r, name := name, folder_structure := fso,
        file_lists := mkFileLists (d.standard.getD "VHDL") d.standards fm,
        blocks := d.blocks, constraints := d.constraints, ips := d.ips,
        supported_simulators := d.supported_simulators.getD DEFAULT_SIMULATORS,
        max_threads := d.max_threads.getD DEFAULT_MAX_THREADS } := by
  unfold Manifest.init
  rw [hn, hfs, hf]

/-- Inversion: what a successful construction says about the document. -/
theorem init_inv {d : ManifestDict} {r : PyPath} {m : Manifest}
    (h : Manifest.init d r = .ok m) :
    ∃ name fso fm, d.name = some name ∧
      initFolderStructure d.folder_structure = .ok fso ∧
      d.files = some fm ∧
      m = { root_dir := r, name := name, folder_structure := fso,
            file_lists := mkFileLists (d.standard.getD "VHDL") d.standards fm,
            blocks := d.blocks, constraints := d.constraints, ips := d.ips,
            supported_simulators := d.supported_simulators.getD DEFAULT_SIMULATORS,
            max_threads := d.max_threads.getD DEFAULT_MAX_THREADS } := by
  unfold Manifest.init at h
  cases hn : d.name with
  | none => rw [hn] at h; exact (Except.noConfusion h)
  | some name =>
    rw [hn] at h
    cases hfs : initFolderStructure d.folder_structure with
    | error e => rw [hfs] at h; exact (Except.noConfusion h)
    | ok fso =>
      rw [hfs] at h
      cases hf : d.files with
      | none => rw [hf] at h; exact (Except.noConfusion h)
      | some fm =>
        rw [hf] at h
        exact ⟨name, fso, fm, rfl, rfl, rfl, (Except.ok.inj h).symm⟩

/-- The file lists of a successfully constructed manifest come from
`mkFileLists` on the document's `files` mapping. -/
theorem init_file_lists {d : ManifestDict} {r : PyPath} {m : Manifest}
    (h : Manifest.init d r = .ok m) :
    ∃ fm, d.files = some fm ∧
      m.file_lists = mkFileLists (d.standard.getD "VHDL") d.standards fm := by
  obtain ⟨name, fso, fm, -, -, hf, rfl⟩ := init_inv h
  exact ⟨fm, hf, rfl⟩

/-- Membership in `mkFileLists`: every file list is one `files` entry with
its standard resolved. -/
theorem mem_mkFileLists {ds : String} {stds : Option (List (String × String))}
    {fm : List (String × Option (List String))} {fl : FileList}
    (h : fl ∈ mkFileLists ds stds fm) :
    ∃ kv ∈ fm, fl = ⟨kv.1, kv.2, resolveStandard ds stds kv.1⟩ := by
  obtain ⟨kv, hkv, rfl⟩ := List.mem_map.mp h
  exact ⟨kv, hkv, rfl⟩

/-! ## C1 and C2: standard resolution -/

/-- C1: for every manifest and every declared kind, if the kind is `"tb"`
then the resulting FileList's standard is `"VHDL 2008"`, regardless of the
declared default `standard` and of any per-kind entry for `"tb"` in the
`standards` map. -/
theorem tb_standard_always_2008 (d : ManifestDict) (r : PyPath) (m : Manifest)
    (h : Manifest.init d r = .ok m) :
    ∀ fl ∈ m.file_lists, fl.kind = "tb" → fl.standard = "VHDL 2008" := by
  obtain ⟨fm, -, hfl⟩ := init_file_lists h
  intro fl hm hk
  rw [hfl] at hm
  obtain ⟨kv, -, rfl⟩ := mem_mkFileLists hm
  have hk1 : kv.1 = "tb" := hk
  show resolveStandard _ _ kv.1 = "VHDL 2008"
  rw [hk1]
  simp [resolveStandard]

/-- Witness for C1: a concrete manifest declaring default standard `"VHDL"`
and a `standards` override `tb ↦ "VHDL 1993"` still gets `"VHDL 2008"` for
its `tb` FileList. -/
theorem tb_standard_always_2008_witness :
    FileList.standard ⟨"tb", some ["t.vhd"], "VHDL 2008"⟩ = "VHDL 2008" :=
  tb_standard_always_2008 dC1 rC1 mC1 (by decide)
    ⟨"tb", some ["t.vhd"], "VHDL 2008"⟩ (by decide) rfl

/-- C2: for every declared kind other than `"tb"`, a `standards` entry for
the kind wins; otherwise the declared default `standard` applies; and with no
declared `standard` the global default `"VHDL"` applies. -/
theorem non_tb_standard_resolution (d : ManifestDict) (r : PyPath) (m : Manifest)
    (h : Manifest.init d r = .ok m) :
    ∀ fl ∈ m.file_lists, fl.kind ≠ "tb" →
      (∀ s, List.lookup fl.kind (d.standards.getD []) = some s → fl.standard = s) ∧
      (List.lookup fl.kind (d.standards.getD []) = none →
        fl.standard = d.standard.getD "VHDL") := by
  obtain ⟨fm, -, hfl⟩ := init_file_lists h
  intro fl hm hk
  rw [hfl] at hm
  obtain ⟨kv, -, rfl⟩ := mem_mkFileLists hm
  have hk1 : kv.1 ≠ "tb" := hk
  constructor
  · intro s hs
    show resolveStandard _ _ kv.1 = s
    have hs1 : List.lookup kv.1 (d.standards.getD []) = some s := hs
    cases hstds : d.standards with
    | none => rw [hstds] at hs1; simp at hs1
    | some stds =>
      rw [hstds] at hs1
      simp only [Option.getD] at hs1
      simp [resolveStandard, hk1, hs1]
  · intro hs
    show resolveStandard _ _ kv.1 = d.standard.getD "VHDL"
    have hs1 : List.lookup kv.1 (d.standards.getD []) = none := hs
    cases hstds : d.standards with
    | none => simp [resolveStandard, hk1, hstds]
    | some stds =>
      rw [hstds] at hs1
      simp only [Option.getD] at hs1
      simp [resolveStandard, hk1, hstds, hs1]

/-- Witness for C2: with default standard `"VHDL"` and
`standards = {dsn ↦ "VHDL 2008"}`, the `dsn` FileList resolves to
`"VHDL 2008"`. -/
theorem non_tb_standard_resolution_witness :
    FileList.standard ⟨"dsn", some ["a.vhd"], "VHDL 2008"⟩ = "VHDL 2008" :=
  (non_tb_standard_resolution dC2 rC2 mC2 (by decide)
    ⟨"dsn", some ["a.vhd"], "VHDL 2008"⟩ (by decide) (by decide)).1
    "VHDL 2008" (by decide)

/-! ## C3: library-name derivation -/

/-- C3: `get_lib_name` concatenates the block name with the fixed suffix of
the FileList's kind, and the four names so produced for the four recognized
kinds are pairwise distinct for the same block name. -/
theorem get_lib_name_suffix_and_distinct (fl : FileList) (blk_name : String) :
    (fl.kind = "dsn" → fl.get_lib_name blk_name = .ok (blk_name ++ "_dsn")) ∧
    (fl.kind = "tb" → fl.get_lib_name blk_name = .ok (blk_name ++ "_tb")) ∧
    (fl.kind = "self" → fl.get_lib_name blk_name = .ok (blk_name ++ "_lib")) ∧
    (fl.kind = "none" → fl.get_lib_name blk_name = .ok blk_name) ∧
    (blk_name ++ "_dsn" ≠ blk_name ++ "_tb") ∧
    (blk_name ++ "_dsn" ≠ blk_name ++ "_lib") ∧
    (blk_name ++ "_dsn" ≠ blk_name) ∧
    (blk_name ++ "_tb" ≠ blk_name ++ "_lib") ∧
    (blk_name ++ "_tb" ≠ blk_name) ∧
    (blk_name ++ "_lib" ≠ blk_name) := by
  have hcancel : ∀ a b : String, a ≠ b → blk_name ++ a ≠ blk_name ++ b := by
    intro a b hab h
    apply hab
    have hd := congrArg String.data h
    rw [String.data_append, String.data_append] at hd
    exact String.ext (List.append_cancel_left hd)
  have hlen : ∀ s : String, s.length ≠ 0 → blk_name ++ s ≠ blk_name := by
    intro s hs h
    have hl := congrArg String.length h
    rw [String.length_append] at hl
    omega
  refine ⟨?_, ?_, ?_, ?_, hcancel _ _ (by decide), hcancel _ _ (by decide),
    hlen _ (by decide), hcancel _ _ (by decide), hlen _ (by decide), hlen _ (by decide)⟩
  · intro hk; unfold FileList.get_lib_name; rw [hk]; rfl
  · intro hk; unfold FileList.get_lib_name; rw [hk]; rfl
  · intro hk; unfold FileList.get_lib_name; rw [hk]; rfl
  · intro hk
    unfold FileList.get_lib_name
    rw [hk]
    show Except.ok (blk_name ++ "") = Except.ok blk_name
    rw [String.append_empty]

/-- Witness for C3: a concrete `self` FileList and block name, plus one of
the distinctness facts. -/
theorem get_lib_name_suffix_and_distinct_witness :
    FileList.get_lib_name ⟨"self", some [], "VHDL"⟩ "blk" = .ok ("blk" ++ "_lib") ∧
    ("blk" : String) ++ "_dsn" ≠ "blk" ++ "_tb" :=
  ⟨(get_lib_name_suffix_and_distinct ⟨"self", some [], "VHDL"⟩ "blk").2.2.1 rfl,
   (get_lib_name_suffix_and_distinct ⟨"self", some [], "VHDL"⟩ "blk").2.2.2.2.1⟩

/-! ## C5: source-directory resolution -/

/-- Joining a path with the empty string leaves it unchanged (`pathlib` drops
empty components). -/
theorem PyPath.div_empty (p : PyPath) : p.div "" = p := by
  obtain ⟨ab, sg⟩ := p
  show (⟨ab, sg ++ []⟩ : PyPath) = ⟨ab, sg⟩
  rw [List.append_nil]

/-- C5: without a `folder_structure`, `get_source_dir` returns `root_dir` for
every kind; under the `"src_dsn"` convention, `dsn` resolves to
`root_dir/src/dsn`, `tb` to `root_dir/src/tb`, and `self` to `root_dir`
itself. -/
theorem get_source_dir_resolution (m : Manifest) :
    (m.folder_structure = none → ∀ kind, m.get_source_dir kind = .ok m.root_dir) ∧
    (∀ fs, m.folder_structure = some fs → FolderStructure.init "src_dsn" = .ok fs →
      m.get_source_dir "dsn" =
        .ok ⟨m.root_dir.absolute, m.root_dir.segs ++ ["src", "dsn"]⟩ ∧
      m.get_source_dir "tb" =
        .ok ⟨m.root_dir.absolute, m.root_dir.segs ++ ["src", "tb"]⟩ ∧
      m.get_source_dir "self" = .ok m.root_dir) := by
  constructor
  · intro h kind
    unfold Manifest.get_source_dir
    rw [h]
  · intro fs hm hfs
    have hfs2 : fs = ⟨some "src_dsn",
        [("dsn", "src/dsn"), ("tb", "src/tb"), ("self", "")]⟩ :=
      (Except.ok.inj hfs).symm
    subst hfs2
    refine ⟨?_, ?_, ?_⟩
    · unfold Manifest.get_source_dir; rw [hm]; rfl
    · unfold Manifest.get_source_dir; rw [hm]; rfl
    · unfold Manifest.get_source_dir
      rw [hm]
      exact congrArg Except.ok (PyPath.div_empty m.root_dir)

/-- Witness for C5: concrete manifests with no folder structure and with the
`"src_dsn"` convention. -/
theorem get_source_dir_resolution_witness :
    mC5a.get_source_dir "tb" = .ok ⟨true, ["root"]⟩ ∧
    mC5b.get_source_dir "dsn" = .ok ⟨true, ["root", "src", "dsn"]⟩ ∧
    mC5b.get_source_dir "tb" = .ok ⟨true, ["root", "src", "tb"]⟩ ∧
    mC5b.get_source_dir "self" = .ok ⟨true, ["root"]⟩ := by
  have ha := (get_source_dir_resolution mC5a).1 rfl "tb"
  have hb := (get_source_dir_resolution mC5b).2
    ⟨some "src_dsn", [("dsn", "src/dsn"), ("tb", "src/tb"), ("self", "")]⟩ rfl (by decide)
  exact ⟨ha, hb.1, hb.2.1, hb.2.2⟩

/-! ## C6: preferred-simulator selection -/

/-- One step of the scan: the head of the preference order is taken exactly
when it is a supported simulator. -/
theorem find?_contains_cons (sups : List String) (a : String) (l : List String) :
    List.find? (fun s => sups.contains s) (a :: l) =
      if a ∈ sups then some a else List.find? (fun s => sups.contains s) l := by
  by_cases h : a ∈ sups
  · rw [List.find?_cons_of_pos _ (by simpa using h), if_pos h]
  · rw [List.find?_cons_of_neg _ (by simpa using h), if_neg h]

/-- C6: `get_preferred_simulator` returns the first simulator of the fixed
priority order ghdl, qsim, msim, msim_free, xsim that is in
`supported_simulators`, and no value when none of them is supported. -/
theorem get_preferred_simulator_first (m : Manifest) :
    (m.get_preferred_simulator =
      if "ghdl" ∈ m.supported_simulators then some "ghdl"
      else if "qsim" ∈ m.supported_simulators then some "qsim"
      else if "msim" ∈ m.supported_simulators then some "msim"
      else if "msim_free" ∈ m.supported_simulators then some "msim_free"
      else if "xsim" ∈ m.supported_simulators then some "xsim"
      else none) ∧
    ((∀ s ∈ preference_order, s ∉ m.supported_simulators) →
      m.get_preferred_simulator = none) := by
  have hchain : m.get_preferred_simulator =
      if "ghdl" ∈ m.supported_simulators then some "ghdl"
      else if "qsim" ∈ m.supported_simulators then some "qsim"
      else if "msim" ∈ m.supported_simulators then some "msim"
      else if "msim_free" ∈ m.supported_simulators then some "msim_free"
      else if "xsim" ∈ m.supported_simulators then some "xsim"
      else none := by
    unfold Manifest.get_preferred_simulator preference_order
    rw [find?_contains_cons, find?_contains_cons, find?_contains_cons,
      find?_contains_cons, find?_contains_cons, List.find?_nil]
  refine ⟨hchain, ?_⟩
  intro h
  rw [hchain, if_neg (h "ghdl" (by decide)), if_neg (h "qsim" (by decide)),
    if_neg (h "msim" (by decide)), if_neg (h "msim_free" (by decide)),
    if_neg (h "xsim" (by decide))]

/-- Witness for C6: with supported simulators `[xsim, msim]` the result is
`msim`; with an empty list there is no result. -/
theorem get_preferred_simulator_first_witness :
    mC6a.get_preferred_simulator = some "msim" ∧
    mC6b.get_preferred_simulator = none := by
  constructor
  · rw [(get_preferred_simulator_first mC6a).1]
    decide
  · exact (get_preferred_simulator_first mC6b).2 (by decide)

/-! ## C7: unknown folder-structure conventions -/

/-- Counterexample to C7 as stated: for the unknown convention name
`"bogus"`, construction itself raises (the structure lookup in `__init__`
fails), so there is no constructed object on which resolution could later
fail. -/
theorem unknown_convention_fails_at_construction_cex :
    FolderStructure.init "bogus" = .error (.keyError "bogus") := by decide

/-- C7 (amended): constructing a `FolderStructure` from a convention name
outside the closed set fails deterministically at construction time with a
key-lookup error naming the convention (the `name` attribute is computed as
unresolved first, but the structure lookup in `__init__` raises before any
object is produced, so directory resolution is never reached). -/
theorem unknown_convention_construction_error (s : String)
    (h : List.lookup s folder_structures = none) :
    FolderStructure.init s = .error (.keyError s) := by
  unfold FolderStructure.init
  rw [h]

/-- Witness for C7 (amended) at the concrete unknown name `"unknown_conv"`. -/
theorem unknown_convention_construction_error_witness :
    FolderStructure.init "unknown_conv" = .error (.keyError "unknown_conv") :=
  unknown_convention_construction_error "unknown_conv" (by decide)

/-! ## C8: required keys -/

/-- Under `folderOk`, the folder-structure step of construction succeeds. -/
theorem initFolderStructure_ok {d : ManifestDict} (h : folderOk d) :
    ∃ fso, initFolderStructure d.folder_structure = .ok fso := by
  cases hfs : d.folder_structure with
  | none => exact ⟨none, rfl⟩
  | some s =>
    have hs := h s hfs
    obtain ⟨st, hst⟩ := Option.isSome_iff_exists.mp hs
    refine ⟨some ⟨some s, st⟩, ?_⟩
    show (FolderStructure.init s).map some = _
    unfold FolderStructure.init
    rw [hst]
    simp [Except.map, Option.isSome_iff_exists.mpr ⟨st, hst⟩]

/-- C8: a document lacking `name` fails with the key error for `name`; one
with `name` but lacking `files` fails with the key error for `files`; with
both present construction does not fail for their absence (it succeeds, the
folder-structure key being resolvable). -/
theorem missing_required_field_errors (d : ManifestDict) (r : PyPath) :
    (d.name = none → Manifest.init d r = .error (.keyError "name")) ∧
    (d.name ≠ none → d.files = none → folderOk d →
      Manifest.init d r = .error (.keyError "files")) ∧
    (d.name ≠ none → d.files ≠ none → folderOk d →
      (Manifest.init d r).isOk = true) := by
  refine ⟨?_, ?_, ?_⟩
  · intro h
    unfold Manifest.init
    rw [h]
  · intro hn hf hfso
    obtain ⟨name, hn2⟩ := Option.ne_none_iff_exists.mp hn
    obtain ⟨fso, hfs⟩ := initFolderStructure_ok hfso
    unfold Manifest.init
    rw [← hn2, hfs, hf]
  · intro hn hf hfso
    obtain ⟨name, hn2⟩ := Option.ne_none_iff_exists.mp hn
    obtain ⟨fso, hfs⟩ := initFolderStructure_ok hfso
    obtain ⟨fm, hf2⟩ := Option.ne_none_iff_exists.mp hf
    rw [init_ok d r hn2.symm hfs hf2.symm]
    rfl

/-- Witness for C8: a document without `name`, one without `files`, and one
with both. -/
theorem missing_required_field_errors_witness :
    Manifest.init dC8a rC8 = .error (.keyError "name") ∧
    Manifest.init dC8b rC8 = .error (.keyError "files") ∧
    (Manifest.init dC8c rC8).isOk = true :=
  ⟨(missing_required_field_errors dC8a rC8).1 rfl,
   (missing_required_field_errors dC8b rC8).2.1 (by decide) rfl
     (fun s hs => nomatch hs),
   (missing_required_field_errors dC8c rC8).2.2 (by decide) (by decide)
     (fun s hs => nomatch hs)⟩

/-! ## C10: kind keys are not validated at construction -/

/-- C10: construction accepts any strings as kind keys under `files` — the
resulting manifest has one FileList per entry, in order, with the standard
resolved by the default rules — while `get_lib_name` on a FileList whose kind
is outside the closed table fails with a key-lookup error for that kind. -/
theorem kinds_unvalidated_until_get_lib_name (d : ManifestDict) (r : PyPath)
    (hn : d.name ≠ none) (hfso : folderOk d)
    (fm : List (String × Option (List String))) (hf : d.files = some fm) :
    ∃ m, Manifest.init d r = .ok m ∧
      m.file_lists.map FileList.kind = fm.map Prod.fst ∧
      (∀ fl ∈ m.file_lists,
        fl.standard = resolveStandard (d.standard.getD "VHDL") d.standards fl.kind) ∧
      (∀ fl ∈ m.file_lists, List.lookup fl.kind FileList.kinds = none →
        ∀ blk, fl.get_lib_name blk = .error (.keyError fl.kind)) := by
  obtain ⟨name, hn2⟩ := Option.ne_none_iff_exists.mp hn
  obtain ⟨fso, hfs⟩ := initFolderStructure_ok hfso
  refine ⟨_, init_ok d r hn2.symm hfs hf, ?_, ?_, ?_⟩
  · show (mkFileLists _ _ fm).map FileList.kind = fm.map Prod.fst
    unfold mkFileLists
    rw [List.map_map]
    rfl
  · intro fl hm
    obtain ⟨kv, -, rfl⟩ := mem_mkFileLists hm
    rfl
  · intro fl hm hlk blk
    unfold FileList.get_lib_name
    rw [hlk]

/-- Witness for C10: the kind `"weird"` (outside the closed set) is accepted
at construction, and `get_lib_name` on its FileList fails with
`KeyError("weird")`. -/
theorem kinds_unvalidated_until_get_lib_name_witness :
    Manifest.init dC10 rC10 = .ok mC10 ∧
    FileList.get_lib_name ⟨"weird", some ["w.vhd"], "VHDL"⟩ "blk" =
      .error (.keyError "weird") := by
  obtain ⟨m, hm, -, -, hlib⟩ := kinds_unvalidated_until_get_lib_name dC10 rC10
    (by decide) (fun s hs => nomatch hs) [("weird", some ["w.vhd"])] rfl
  have hm10 : Manifest.init dC10 rC10 = .ok mC10 := by decide
  refine ⟨hm10, ?_⟩
  rw [hm10] at hm
  have hmeq : mC10 = m := Except.ok.inj hm
  exact hlib ⟨"weird", some ["w.vhd"], "VHDL"⟩ (by rw [← hmeq]; decide) (by decide) "blk"

/-! ## C4: the shape of `get_all_files` -/

/-- The loop of `get_all_files` over any list of file lists whose files are
present and whose kinds all resolve. -/
theorem getAllFilesAux_ok (m : Manifest) (ls : List FileList)
    (hfiles : ∀ fl ∈ ls, fl.files ≠ none)
    (hdirs : ∀ fl ∈ ls, (m.get_source_dir fl.kind).isOk = true) :
    getAllFilesAux m ls = .ok
      ((ls.map (fun fl =>
        (fl.files.getD []).map (fun file => (resolvedDir m fl.kind).div file))).flatten) := by
  induction ls with
  | nil => rfl
  | cons fl rest ih =>
    have hdir := hdirs fl (List.mem_cons_self fl rest)
    cases hsd : m.get_source_dir fl.kind with
    | error e => rw [hsd] at hdir; exact Bool.noConfusion hdir
    | ok dir =>
      have hrd : resolvedDir m fl.kind = dir := by unfold resolvedDir; rw [hsd]
      cases hfl : fl.files with
      | none => exact absurd hfl (hfiles fl (List.mem_cons_self fl rest))
      | some files =>
        unfold getAllFilesAux
        rw [hsd, hfl,
          ih (fun g hg => hfiles g (List.mem_cons_of_mem fl hg))
             (fun g hg => hdirs g (List.mem_cons_of_mem fl hg))]
        rw [List.map_cons, List.flatten_cons, hrd, hfl]
        rfl

/-- C4: when every declared file list has a present `files` value and a
resolvable kind, `get_all_files` returns exactly every filename joined with
its FileList's resolved source directory, across all FileLists in declaration
order, and the result's length is the sum of the file counts. -/
theorem get_all_files_shape (m : Manifest)
    (hfiles : ∀ fl ∈ m.file_lists, fl.files ≠ none)
    (hdirs : ∀ fl ∈ m.file_lists, (m.get_source_dir fl.kind).isOk = true) :
    m.get_all_files = .ok (expectedAllFiles m) ∧
    (expectedAllFiles m).length =
      (m.file_lists.map (fun fl => (fl.files.getD []).length)).sum := by
  constructor
  · exact getAllFilesAux_ok m m.file_lists hfiles hdirs
  · unfold expectedAllFiles
    rw [List.length_flatten, List.map_map]
    congr 1
    apply List.map_congr_left
    intro fl hm
    simp

/-- Witness for C4: a concrete `src_dsn` manifest with `dsn: [a.vhd, b.vhd]`
and `tb: [t.vhd]` yields the three prefixed paths in order, of total length
2 + 1. -/
theorem get_all_files_shape_witness :
    mC4.get_all_files = .ok
      [⟨true, ["root", "src", "dsn", "a.vhd"]⟩, ⟨true, ["root", "src", "dsn", "b.vhd"]⟩,
       ⟨true, ["root", "src", "tb", "t.vhd"]⟩] ∧
    (expectedAllFiles mC4).length = 3 := by
  have h := get_all_files_shape mC4 (by decide) (by decide)
  refine ⟨?_, ?_⟩
  · rw [h.1]; decide
  · rw [h.2]; decide

/-! ## C9: a null `files` value -/

/-- C9 (at the claim's failing input): a manifest declaring `dsn: [a.vhd]`
and a null `tb:` entry constructs successfully, but `get_all_files` raises
`TypeError` (iterating Python `None`) instead of contributing zero paths for
`tb` and returning the `dsn` paths. -/
theorem null_files_get_all_files_type_error :
    (Manifest.init dC9 rC9).isOk = true ∧
    ((Manifest.init dC9 rC9).bind Manifest.get_all_files) =
      .error PyError.typeError := by
  exact ⟨by decide, by decide⟩

end ManifestReader
